import Mathlib

/-!
Shallow embedding of `src/index.tsx` (SEO meta-data generator front-end).

Strings are modelled as Lean `String` / `List Char`.  The JavaScript
single-character global regex replace `s.replace(/c/g, r)` is modelled by
`replaceChar`; the five chained replaces of `createResultItem` become
`escapeHtml`.  The browser's HTML attribute parsing (which turns the five
character entities written into `data-copycontent` back into characters
before `dataset.copycontent` is read) is modelled by `decodeEntities`.
-/

/-- The double-quote character (written via its code point to keep literals
unambiguous). -/
def quoteChar : Char := Char.ofNat 34

/-- The apostrophe character. -/
def apostropheChar : Char := Char.ofNat 39

/-- JS `s.replace(/c/g, r)` for a single-character pattern `c`:
every occurrence of `c` is replaced by the string `r`. -/
def replaceChar (c : Char) (r : List Char) : List Char → List Char
  | [] => []
  | x :: xs => (if x = c then r else [x]) ++ replaceChar c r xs

/-- The five chained replaces of `createResultItem` (src/index.tsx lines
177-182): `&` then `<` then `>` then `"` then the apostrophe. -/
def escapeHtml (s : List Char) : List Char :=
  replaceChar apostropheChar "&#039;".data
    (replaceChar quoteChar "&quot;".data
      (replaceChar '>' "&gt;".data
        (replaceChar '<' "&lt;".data
          (replaceChar '&' "&amp;".data s))))

/-- String-level wrapper of `escapeHtml`. -/
def escapeHtmlS (s : String) : String := String.mk (escapeHtml s.data)

/-- Per-character escaping as the spec describes it (spec section 4.4 /
section 8): each of the five reserved characters becomes its entity, every
other character is kept unchanged.  This is the spec-side description, to
be compared with the source-side `escapeHtml`. -/
def escCharSpec (c : Char) : List Char :=
  if c = '&' then "&amp;".data
  else if c = '<' then "&lt;".data
  else if c = '>' then "&gt;".data
  else if c = quoteChar then "&quot;".data
  else if c = apostropheChar then "&#039;".data
  else [c]

/-- Modelled from the spec: the browser DOM layer is an external
collaborator (spec section 1 and section 6).  When the markup produced by
`createResultItem` is assigned to `innerHTML`, the HTML parser decodes
character entities in the `data-copycontent` attribute value, so
`dataset.copycontent` later yields the decoded text.  This models that
decoding for the five entities the escaper can emit. -/
def decodeEntities : List Char → List Char
  | [] => []
  | '&' :: 'a' :: 'm' :: 'p' :: ';' :: r => '&' :: decodeEntities r
  | '&' :: 'l' :: 't' :: ';' :: r => '<' :: decodeEntities r
  | '&' :: 'g' :: 't' :: ';' :: r => '>' :: decodeEntities r
  | '&' :: 'q' :: 'u' :: 'o' :: 't' :: ';' :: r => quoteChar :: decodeEntities r
  | '&' :: '#' :: '0' :: '3' :: '9' :: ';' :: r => apostropheChar :: decodeEntities r
  | c :: rest => c :: decodeEntities rest

lemma replaceChar_append (c : Char) (r a b : List Char) :
    replaceChar c r (a ++ b) = replaceChar c r a ++ replaceChar c r b := by
  induction a with
  | nil => simp [replaceChar]
  | cons x xs ih => simp [replaceChar, ih]

lemma escapeHtml_append (a b : List Char) :
    escapeHtml (a ++ b) = escapeHtml a ++ escapeHtml b := by
  simp [escapeHtml, replaceChar_append]

lemma escapeHtml_nil : escapeHtml [] = [] := rfl

lemma escapeHtml_single (x : Char) : escapeHtml [x] = escCharSpec x := by
  by_cases h1 : x = '&'
  · subst h1; decide
  by_cases h2 : x = '<'
  · subst h2; decide
  by_cases h3 : x = '>'
  · subst h3; decide
  by_cases h4 : x = quoteChar
  · subst h4; decide
  by_cases h5 : x = apostropheChar
  · subst h5; decide
  have hq : x ≠ quoteChar := h4
  have ha : x ≠ apostropheChar := h5
  simp [escapeHtml, replaceChar, escCharSpec, h1, h2, h3, hq, ha]

lemma escapeHtml_cons (x : Char) (xs : List Char) :
    escapeHtml (x :: xs) = escCharSpec x ++ escapeHtml xs := by
  have : x :: xs = [x] ++ xs := rfl
  rw [this, escapeHtml_append, escapeHtml_single]

lemma escapeHtml_eq_flatMap (s : List Char) :
    escapeHtml s = s.flatMap escCharSpec := by
  induction s with
  | nil => rfl
  | cons x xs ih => rw [escapeHtml_cons, ih]; rfl

set_option maxHeartbeats 1600000 in
lemma decode_escChar (x : Char) (l : List Char) :
    decodeEntities (escCharSpec x ++ l) = x :: decodeEntities l := by
  by_cases h1 : x = '&'
  · subst h1; simp [escCharSpec, decodeEntities]
  by_cases h2 : x = '<'
  · subst h2; simp [escCharSpec, decodeEntities]
  by_cases h3 : x = '>'
  · subst h3; simp [escCharSpec, decodeEntities]
  by_cases h4 : x = quoteChar
  · subst h4; simp [escCharSpec, decodeEntities]
  by_cases h5 : x = apostropheChar
  · subst h5; simp [escCharSpec, decodeEntities]
  have hx : escCharSpec x = [x] := by
    simp [escCharSpec, h1, h2, h3, h4, h5]
  rw [hx]
  show decodeEntities (x :: l) = x :: decodeEntities l
  rw [decodeEntities.eq_def]
  split
  · simp_all
  · simp_all
  · simp_all
  · simp_all
  · simp_all
  · simp_all
  · simp_all

lemma decode_escapeHtml (s : List Char) : decodeEntities (escapeHtml s) = s := by
  induction s with
  | nil => rfl
  | cons x xs ih => rw [escapeHtml_cons, decode_escChar, ih]

/-- The `urlPrefixes` lookup object of `displayResults`
(src/index.tsx lines 125-130), as an association list. -/
def urlPrefixes : List (String × String) :=
  [("направление", "https://www.emcmos.ru/directions/"),
   ("услуга", "https://www.emcmos.ru/programs_and_services/services/"),
   ("заболевание", "https://www.emcmos.ru/disease/"),
   ("статья", "https://www.emcmos.ru/articles/")]

/-- JS `urlPrefixes[articleType] || ''` (src/index.tsx line 131): property
lookup, falling back to the empty string when the key is absent. -/
def urlPrefix (articleType : String) : String :=
  (List.lookup articleType urlPrefixes).getD ""

/-- The `commercialTypes` array of the submit handler
(src/index.tsx line 82). -/
def commercialTypes : List String := ["направление", "услуга"]

/-- The commercial system instruction (src/index.tsx line 85). -/
def commercialInstruction : String :=
  "Ты — SEO-эксперт. Твоя задача — создавать качественные и продающие SEO-данные для коммерческих страниц сайта медицинской клиники (направления и услуги). Вместо названия конкретной клиники используй слово \x27клиника\x27 (с маленькой буквы, если это не начало предложения). Подчеркивай преимущества лечения в клинике, используй призывы к действию (например, \x27запишитесь на прием\x27, \x27узнайте стоимость\x27). Слово \x27платно\x27 используй умеренно, чтобы указать на коммерческий характер услуг. Убедись, что Title и Description звучат привлекательно для потенциального клиента и мотивируют его перейти на сайт."

/-- The informational system instruction (src/index.tsx line 88). -/
def informationalInstruction : String :=
  "Ты — SEO-эксперт. Твоя задача — создавать качественные и информативные SEO-данные для информационных страниц сайта медицинской клиники (описание заболеваний и статьи). Вместо названия конкретной клиники используй слово \x27клиника\x27 (с маленькой буквы, если это не начало предложения). Фокусируйся на пользе для читателя, экспертности и полноте информации. Избегай прямых продаж и агрессивных призывов к действию. Если упоминаешь лечение, можешь уместно использовать слово \x27платно\x27, чтобы обозначить, что услуги клиники являются платными. Главная цель — предоставить пользователю полезный контент и показать экспертизу клиники. Title и Description должны быть информативными и вызывают доверие."

/-- The `systemInstruction` selection of the submit handler
(src/index.tsx lines 81-89): commercial when `commercialTypes` includes
the article type, informational otherwise. -/
def systemInstructionFor (articleType : String) : String :=
  if commercialTypes.contains articleType then commercialInstruction
  else informationalInstruction

/-- The user-prompt template `contents` of the submit handler
(src/index.tsx line 91). -/
def buildContents (articleType articleTitle : String) : String :=
  "Сгенерируй SEO-данные для страницы типа \x27" ++ articleType
    ++ "\x27 с заголовком \x27" ++ articleTitle ++ "\x27."

/-- `createResultItem` (src/index.tsx lines 175-193): the markup of one
result block, with the escaped content both in the `data-copycontent`
attribute and in the textarea body. -/
def createResultItem (label content : String) : String :=
  "\n    <div class=\"result-item\" id=\"result-item-" ++ label.toLower
    ++ "\">\n      <div class=\"result-item-header\">\n        <h3>" ++ label
    ++ "</h3>\n        <button class=\"copy-button\" data-copycontent=\""
    ++ escapeHtmlS content
    ++ "\">Копировать</button>\n      </div>\n      <textarea readonly class=\"result-content\">"
    ++ escapeHtmlS content ++ "</textarea>\n    </div>\n  "

/-- JS string coercion applied when a possibly-absent (`undefined`) value
is concatenated into a string, as in `(urlPrefixes[articleType] || '') +
data.url` (src/index.tsx line 131): `undefined` prints as "undefined". -/
def jsString : Option String → String
  | some s => s
  | none => "undefined"

/-- The message of the TypeError raised when `createResultItem` calls
`.replace` on an absent (`undefined`) field (src/index.tsx line 177). -/
def typeErrorMessage : String :=
  "Cannot read properties of undefined (reading \x27replace\x27)"

/-- One rendered field of `displayResults`: produces the markup of the
block, or raises (models the TypeError) when the value is absent.  The
URL field never raises because line 131 coerces an absent slug to the
string "undefined" before `createResultItem` is reached. -/
def tryCreateResultItem (label : String) (content : Option String) :
    Except String String :=
  match content with
  | none => Except.error typeErrorMessage
  | some s => Except.ok (createResultItem label s)

/-- `displayResults` (src/index.tsx lines 116-138) restricted to what it
stores into `resultsContainer.innerHTML`: the four blocks are built left
to right (URL, Title, Description, Keywords) and the assignment happens
only after all four succeeded, so a raise leaves nothing rendered.  The
fields are `Option` because the parsed JSON object may lack them. -/
def displayResults (url title description keywords : Option String)
    (articleType : String) : Except String String :=
  let fullUrl := urlPrefix articleType ++ jsString url
  match tryCreateResultItem "URL" (some fullUrl) with
  | Except.error m => Except.error m
  | Except.ok a =>
    match tryCreateResultItem "Title" title with
    | Except.error m => Except.error m
    | Except.ok b =>
      match tryCreateResultItem "Description" description with
      | Except.error m => Except.error m
      | Except.ok c =>
        match tryCreateResultItem "Keywords" keywords with
        | Except.error m => Except.error m
        | Except.ok d =>
          Except.ok ("\n    " ++ a ++ "\n    " ++ b ++ "\n    " ++ c
            ++ "\n    " ++ d ++ "\n  ")

/-- Outcome of the awaited external call plus `JSON.parse` on its text
(src/index.tsx lines 93-103), seen from the client: the call itself may
throw, `JSON.parse` may throw on malformed text, or parsing yields an
object whose four properties are each present or absent. -/
inductive CallOutcome where
  | callError (message : String)
  | malformedJson (message : String)
  | parsedObject (url title description keywords : Option String)

/-- The body of the `try` block after the call returned (src/index.tsx
lines 103-104): propagate call / parse errors, otherwise run
`displayResults` on the parsed fields. -/
def tryBody (outcome : CallOutcome) (articleType : String) :
    Except String String :=
  match outcome with
  | CallOutcome.callError m => Except.error m
  | CallOutcome.malformedJson m => Except.error m
  | CallOutcome.parsedObject u t d k => displayResults u t d k articleType

/-- The error markup written by the `catch` block (src/index.tsx
line 107). -/
def genericErrorHTML (message : String) : String :=
  "<p>Произошла ошибка при генерации данных. Пожалуйста, попробуйте снова.</p><p><i>"
    ++ message ++ "</i></p>"

/-- What `resultsContainer.innerHTML` holds after try/catch completed
(src/index.tsx lines 80-107): the rendered blocks on success, the generic
error markup with the thrown error's message otherwise. -/
def finalResultsHTML (outcome : CallOutcome) (articleType : String) : String :=
  match tryBody outcome articleType with
  | Except.ok html => html
  | Except.error m => genericErrorHTML m

/-- The mutable DOM state the script touches: the fieldset / error panel
set up by the startup check (src/index.tsx lines 55-61) and the
button / spinner / results elements toggled by the submit handler
(src/index.tsx lines 74-78 and 108-113).  `hidden` flags model membership
of the `hidden` CSS class. -/
structure AppState where
  formFieldsetDisabled : Bool
  apiKeyErrorHTML : String
  apiKeyErrorHidden : Bool
  generateButtonDisabled : Bool
  spinnerHidden : Bool
  resultsHidden : Bool
  resultsHTML : String
deriving DecidableEq, Repr

/-- The configuration-error markup written when the key is missing
(src/index.tsx lines 57-58). -/
def configErrorHTML : String :=
  "<p><strong>Ошибка конфигурации:</strong> API-ключ не найден.</p>\n    <p>Пожалуйста, убедитесь, что переменная окружения <code>API_KEY</code> правильно установлена в настройках вашего проекта на Vercel.</p>"

/-- The startup `if (!API_KEY)` check (src/index.tsx lines 55-61), run
once at module load before any listener fires.  `process.env.API_KEY` is
either absent (`none`) or a string; JS falsiness makes the empty string
count as missing too. -/
def startupCheck (apiKey : Option String) (st : AppState) : AppState :=
  if apiKey.getD "" = "" then
    { st with
      apiKeyErrorHTML := configErrorHTML
      apiKeyErrorHidden := false
      formFieldsetDisabled := true }
  else st

/-- The request handed to `ai.models.generateContent`
(src/index.tsx lines 93-101), up to the fixed schema / MIME directives. -/
structure GenRequest where
  model : String
  contents : String
  systemInstruction : String
deriving DecidableEq, Repr

/-- One form submission as the handler sees it: the two form values plus
the oracle's answer to the (single) external call the handler would
make. -/
structure SubmitEvent where
  articleTitle : String
  articleType : String
  outcome : CallOutcome

/-- JS `String.prototype.trim`: strip leading and trailing
whitespace. -/
def jsTrim (s : String) : String :=
  String.mk
    (((s.data.dropWhile Char.isWhitespace).reverse.dropWhile
      Char.isWhitespace).reverse)

/-- The submit handler (src/index.tsx lines 63-114), as a state
transition.  Returns the new DOM state and the request sent to the
external service (`none` when the empty-title guard returned early and
nothing was sent).  The `try`/`catch` is `tryBody`/`genericErrorHTML`;
the `finally` block is applied unconditionally after either branch. -/
def handleSubmit (st : AppState) (ev : SubmitEvent) :
    AppState × Option GenRequest :=
  if jsTrim ev.articleTitle = "" then (st, none)
  else
    let loading : AppState :=
      { st with
        generateButtonDisabled := true
        spinnerHidden := false
        resultsHidden := true
        resultsHTML := "" }
    let req : GenRequest :=
      { model := "gemini-2.5-flash"
        contents := buildContents ev.articleType ev.articleTitle
        systemInstruction := systemInstructionFor ev.articleType }
    let afterTryCatch : AppState :=
      match tryBody ev.outcome ev.articleType with
      | Except.ok html => { loading with resultsHTML := html }
      | Except.error m => { loading with resultsHTML := genericErrorHTML m }
    ({ afterTryCatch with
        generateButtonDisabled := false
        spinnerHidden := true
        resultsHidden := false }, some req)

/-- What `dataset.copycontent` yields for a field rendered from
`original`: the attribute was written as `escapeHtmlS original` inside
`createResultItem`, and the DOM's attribute parsing decoded its
entities. -/
def datasetCopycontent (original : String) : String :=
  String.mk (decodeEntities (escapeHtml original.data))

/-- Observable effect of one click on a copy button
(src/index.tsx lines 140-153). -/
inductive CopyEffect where
  | noAction
  | copied (text : String)
deriving DecidableEq, Repr

/-- The copy-button click handler (src/index.tsx lines 141-152): read
`dataset.copycontent`; if it is truthy (non-empty), write it to the
clipboard and change the label, otherwise do nothing. -/
def copyButtonClick (original : String) : CopyEffect :=
  let content := datasetCopycontent original
  if content = "" then CopyEffect.noAction
  else CopyEffect.copied content

lemma datasetCopycontent_eq (s : String) : datasetCopycontent s = s := by
  cases s with
  | mk d => simp [datasetCopycontent, decode_escapeHtml]

lemma urlPrefix_not_found (t : String)
    (h : t ∉ ["направление", "услуга", "заболевание", "статья"]) :
    urlPrefix t = "" := by
  simp only [List.mem_cons, List.mem_singleton, not_or] at h
  obtain ⟨h1, h2, h3, h4, -⟩ := h
  have b1 : (t == "направление") = false := beq_eq_false_iff_ne.mpr h1
  have b2 : (t == "услуга") = false := beq_eq_false_iff_ne.mpr h2
  have b3 : (t == "заболевание") = false := beq_eq_false_iff_ne.mpr h3
  have b4 : (t == "статья") = false := beq_eq_false_iff_ne.mpr h4
  simp [urlPrefix, urlPrefixes, List.lookup, b1, b2, b3, b4]

/-- A concrete DOM state used to instantiate the state-transition
theorems on explicit inputs. -/
def demoState : AppState :=
  { formFieldsetDisabled := false
    apiKeyErrorHTML := ""
    apiKeyErrorHidden := true
    generateButtonDisabled := false
    spinnerHidden := true
    resultsHidden := true
    resultsHTML := "" }

/-- C3: the Result Renderer's escaping equals the per-character map that
replaces exactly the five reserved characters by their entities
(`&amp;` `&lt;` `&gt;` `&quot;` `&#039;`) and keeps every other
character unchanged and in order. -/
theorem seo_c3_escape_exact (s : String) :
    escapeHtmlS s = String.mk (s.data.flatMap escCharSpec) ∧
    escCharSpec '&' = "&amp;".data ∧
    escCharSpec '<' = "&lt;".data ∧
    escCharSpec '>' = "&gt;".data ∧
    escCharSpec quoteChar = "&quot;".data ∧
    escCharSpec apostropheChar = "&#039;".data ∧
    (∀ c : Char, c ≠ '&' → c ≠ '<' → c ≠ '>' → c ≠ quoteChar →
      c ≠ apostropheChar → escCharSpec c = [c]) := by
  refine ⟨?_, by decide, by decide, by decide, by decide, by decide, ?_⟩
  · simp [escapeHtmlS, escapeHtml_eq_flatMap]
  · intro c h1 h2 h3 h4 h5
    simp [escCharSpec, h1, h2, h3, h4, h5]

theorem seo_c3_witness :
    escapeHtmlS "a<b&c" = String.mk ("a<b&c".data.flatMap escCharSpec) ∧
    escCharSpec 'x' = ['x'] :=
  ⟨(seo_c3_escape_exact "a<b&c").1,
   (seo_c3_escape_exact "a<b&c").2.2.2.2.2.2 'x' (by decide) (by decide)
     (by decide) (by decide) (by decide)⟩

/-- C2: the copy attribute round-trips — for every field value, the
decoded `data-copycontent` the click handler reads equals the original
unescaped string, and whenever the value is non-empty the click copies
exactly that original string (the escaped form is display-only). -/
theorem seo_c2_copy_roundtrip (s : String) :
    datasetCopycontent s = s ∧
    (s ≠ "" → copyButtonClick s = CopyEffect.copied s) := by
  refine ⟨datasetCopycontent_eq s, fun h => ?_⟩
  simp [copyButtonClick, datasetCopycontent_eq, h]

theorem seo_c2_witness :
    ("a&<b" : String) ≠ "" ∧
    copyButtonClick "a&<b" = CopyEffect.copied "a&<b" :=
  ⟨by decide, (seo_c2_copy_roundtrip "a&<b").2 (by decide)⟩

/-- C9: clicking a copy button whose field was rendered from the empty
string performs no clipboard write and no label change, and the empty
original is the only value for which the handler does nothing. -/
theorem seo_c9_empty_copy_noop (s : String) :
    copyButtonClick s = CopyEffect.noAction ↔ s = "" := by
  by_cases h : s = "" <;>
    simp [copyButtonClick, datasetCopycontent_eq, h]

/-- C4: the Prompt Builder picks exactly one of the two fixed
instruction classes — the commercial instruction precisely for the page
types "направление" and "услуга", the informational instruction for
every other page type; the two classes are distinct. -/
theorem seo_c4_instruction_selection (t : String) :
    (t = "направление" ∨ t = "услуга" →
      systemInstructionFor t = commercialInstruction) ∧
    (¬(t = "направление" ∨ t = "услуга") →
      systemInstructionFor t = informationalInstruction) ∧
    commercialInstruction ≠ informationalInstruction := by
  refine ⟨fun h => ?_, fun h => ?_, by decide⟩
  · rcases h with h | h <;> subst h <;> rfl
  · rw [not_or] at h
    have b1 : (t == "направление") = false := beq_eq_false_iff_ne.mpr h.1
    have b2 : (t == "услуга") = false := beq_eq_false_iff_ne.mpr h.2
    simp [systemInstructionFor, commercialTypes, List.contains, List.elem, b1, b2]

theorem seo_c4_witness :
    systemInstructionFor "направление" = commercialInstruction ∧
    systemInstructionFor "статья" = informationalInstruction :=
  ⟨(seo_c4_instruction_selection "направление").1 (Or.inl rfl),
   (seo_c4_instruction_selection "статья").2.1 (by decide)⟩

/-- C5: the displayed URL is always the static prefix-table entry for
the page type concatenated with the returned slug; a page type outside
the table degrades to the empty prefix (the slug alone), and in
particular "направление" with slug "lechenie-migreni" yields the full
clinic URL while an unrecognized type with slug "foo" yields "foo". -/
theorem seo_c5_url_construction (aty slug ti de kw : String) :
    displayResults (some slug) (some ti) (some de) (some kw) aty
      = Except.ok ("\n    " ++ createResultItem "URL" (urlPrefix aty ++ slug)
        ++ "\n    " ++ createResultItem "Title" ti
        ++ "\n    " ++ createResultItem "Description" de
        ++ "\n    " ++ createResultItem "Keywords" kw ++ "\n  ") ∧
    (aty ∉ ["направление", "услуга", "заболевание", "статья"] →
      urlPrefix aty ++ slug = slug) ∧
    urlPrefix "направление" ++ "lechenie-migreni"
      = "https://www.emcmos.ru/directions/lechenie-migreni" ∧
    urlPrefix "новость" ++ "foo" = "foo" := by
  refine ⟨rfl, fun h => ?_, by decide, by decide⟩
  rw [urlPrefix_not_found aty h]
  simp

theorem seo_c5_witness :
    ("новость" : String) ∉ ["направление", "услуга", "заболевание", "статья"] ∧
    urlPrefix "новость" ++ "foo" = "foo" :=
  ⟨by decide, (seo_c5_url_construction "новость" "foo" "t" "d" "k").2.1 (by decide)⟩

/-- C10: the static URL-prefix table has exactly the four entries for
"направление", "услуга", "заболевание" and "статья" with the clinic URL
prefixes, and every other page type gets the empty prefix. -/
theorem seo_c10_prefix_table (t : String) :
    urlPrefix "направление" = "https://www.emcmos.ru/directions/" ∧
    urlPrefix "услуга" = "https://www.emcmos.ru/programs_and_services/services/" ∧
    urlPrefix "заболевание" = "https://www.emcmos.ru/disease/" ∧
    urlPrefix "статья" = "https://www.emcmos.ru/articles/" ∧
    urlPrefixes.length = 4 ∧
    (t ∉ ["направление", "услуга", "заболевание", "статья"] →
      urlPrefix t = "") :=
  ⟨by decide, by decide, by decide, by decide, rfl, urlPrefix_not_found t⟩

theorem seo_c10_witness :
    ("новости" : String) ∉ ["направление", "услуга", "заболевание", "статья"] ∧
    urlPrefix "новости" = "" :=
  ⟨by decide, (seo_c10_prefix_table "новости").2.2.2.2.2 (by decide)⟩

/-- C7: a submission whose title trims to the empty string is a silent
no-op — the handler returns before any UI toggle, so the state is
unchanged and no request is sent. -/
theorem seo_c7_empty_title_noop (st : AppState) (ev : SubmitEvent)
    (h : jsTrim ev.articleTitle = "") :
    handleSubmit st ev = (st, none) := by
  simp [handleSubmit, h]

theorem seo_c7_witness :
    jsTrim "  " = "" ∧
    handleSubmit demoState
      { articleTitle := "  ", articleType := "статья",
        outcome := CallOutcome.callError "x" } = (demoState, none) :=
  ⟨rfl, seo_c7_empty_title_noop demoState _ rfl⟩

/-- C6: for every submission with a non-empty trimmed title, whatever
the call, parse, or render outcome, the `finally` block leaves the UI
idle — submit button re-enabled, spinner hidden, results area
revealed. -/
theorem seo_c6_loading_released (st : AppState) (ev : SubmitEvent)
    (h : ¬ jsTrim ev.articleTitle = "") :
    (handleSubmit st ev).1.generateButtonDisabled = false ∧
    (handleSubmit st ev).1.spinnerHidden = true ∧
    (handleSubmit st ev).1.resultsHidden = false := by
  simp only [handleSubmit, if_neg h]
  cases tryBody ev.outcome ev.articleType <;> simp

theorem seo_c6_witness :
    ¬ jsTrim "Мигрень" = "" ∧
    ((handleSubmit demoState
        { articleTitle := "Мигрень", articleType := "статья",
          outcome := CallOutcome.callError "сбой" }).1.generateButtonDisabled
        = false ∧
      (handleSubmit demoState
        { articleTitle := "Мигрень", articleType := "статья",
          outcome := CallOutcome.callError "сбой" }).1.spinnerHidden = true ∧
      (handleSubmit demoState
        { articleTitle := "Мигрень", articleType := "статья",
          outcome := CallOutcome.callError "сбой" }).1.resultsHidden = false) :=
  ⟨by decide, seo_c6_loading_released demoState _ (by decide)⟩

lemma handleSubmit_startup_fields (st : AppState) (ev : SubmitEvent) :
    (handleSubmit st ev).1.formFieldsetDisabled = st.formFieldsetDisabled ∧
    (handleSubmit st ev).1.apiKeyErrorHTML = st.apiKeyErrorHTML ∧
    (handleSubmit st ev).1.apiKeyErrorHidden = st.apiKeyErrorHidden := by
  by_cases h : jsTrim ev.articleTitle = ""
  · simp [handleSubmit, h]
  · simp only [handleSubmit, if_neg h]
    cases tryBody ev.outcome ev.articleType <;> simp

/-- A whole session after startup: the submit handler applied to each
submission event in turn. -/
def runSession (st : AppState) (evs : List SubmitEvent) : AppState :=
  evs.foldl (fun s ev => (handleSubmit s ev).1) st

lemma runSession_startup_fields (evs : List SubmitEvent) (st : AppState) :
    (runSession st evs).formFieldsetDisabled = st.formFieldsetDisabled ∧
    (runSession st evs).apiKeyErrorHTML = st.apiKeyErrorHTML ∧
    (runSession st evs).apiKeyErrorHidden = st.apiKeyErrorHidden := by
  induction evs generalizing st with
  | nil => exact ⟨rfl, rfl, rfl⟩
  | cons e es ih =>
    have hstep := handleSubmit_startup_fields st e
    have hrest := ih ((handleSubmit st e).1)
    refine ⟨?_, ?_, ?_⟩
    · exact (hrest.1).trans hstep.1
    · exact (hrest.2.1).trans hstep.2.1
    · exact (hrest.2.2).trans hstep.2.2

/-- C8: when the credential is absent (or empty, which JS treats as
missing) the startup check disables the form fieldset and shows the
fixed configuration-error panel, and no run of submit events ever
re-enables the fieldset or touches the panel — the state persists for
the whole session. -/
theorem seo_c8_missing_key (st : AppState) (key : Option String)
    (h : key.getD "" = "") (evs : List SubmitEvent) :
    (startupCheck key st).formFieldsetDisabled = true ∧
    (startupCheck key st).apiKeyErrorHidden = false ∧
    (startupCheck key st).apiKeyErrorHTML = configErrorHTML ∧
    (runSession (startupCheck key st) evs).formFieldsetDisabled = true ∧
    (runSession (startupCheck key st) evs).apiKeyErrorHidden = false ∧
    (runSession (startupCheck key st) evs).apiKeyErrorHTML = configErrorHTML := by
  have hst : startupCheck key st =
      { st with
        apiKeyErrorHTML := configErrorHTML
        apiKeyErrorHidden := false
        formFieldsetDisabled := true } := by
    simp [startupCheck, h]
  have hrun := runSession_startup_fields evs (startupCheck key st)
  rw [hst] at hrun ⊢
  exact ⟨rfl, rfl, rfl, hrun.1, hrun.2.2, hrun.2.1⟩

theorem seo_c8_witness :
    (Option.getD (none : Option String) "" = "") ∧
    (startupCheck none demoState).formFieldsetDisabled = true ∧
    (runSession (startupCheck none demoState)
      [{ articleTitle := "Мигрень", articleType := "статья",
         outcome := CallOutcome.callError "x" }]).formFieldsetDisabled = true :=
  ⟨rfl,
   (seo_c8_missing_key demoState none rfl []).1,
   (seo_c8_missing_key demoState none rfl
     [{ articleTitle := "Мигрень", articleType := "статья",
        outcome := CallOutcome.callError "x" }]).2.2.2.1⟩

/-- The parse outcome refuting C1: valid JSON whose object carries
`title`, `description` and `keywords` but no `url`. -/
def missingUrlOutcome : CallOutcome :=
  CallOutcome.parsedObject none (some "a") (some "b") (some "c")

/-- C1 fails on the code: a payload that is well-formed JSON but lacks
the required `url` field does not reach the GenerationError path.
`(urlPrefixes[articleType] || '') + data.url` coerces the absent slug to
the string "undefined", all four blocks render, and the results
container holds a full result set whose URL field was rendered from an
absent value. -/
theorem seo_c1_counterexample :
    tryBody missingUrlOutcome "статья"
      = Except.ok ("\n    "
        ++ createResultItem "URL" "https://www.emcmos.ru/articles/undefined"
        ++ "\n    " ++ createResultItem "Title" "a"
        ++ "\n    " ++ createResultItem "Description" "b"
        ++ "\n    " ++ createResultItem "Keywords" "c" ++ "\n  ") ∧
    finalResultsHTML missingUrlOutcome "статья"
      ≠ genericErrorHTML typeErrorMessage := by
  constructor
  · rfl
  · decide

/-- C1 amended: malformed JSON, or a parsed object missing `title`,
`description` or `keywords`, ends in the GenerationError path — the
results container is replaced with the generic failure message plus the
underlying error's message and nothing else is rendered; a parsed
object missing only `url` instead renders fully, with the string
"undefined" in place of the absent slug. -/
theorem seo_c1_structural_failure :
    (∀ m aty : String,
      finalResultsHTML (CallOutcome.malformedJson m) aty
        = genericErrorHTML m) ∧
    (∀ m aty : String,
      finalResultsHTML (CallOutcome.callError m) aty = genericErrorHTML m) ∧
    (∀ (u t d k : Option String) (aty : String),
      t = none ∨ d = none ∨ k = none →
        finalResultsHTML (CallOutcome.parsedObject u t d k) aty
          = genericErrorHTML typeErrorMessage) ∧
    (∀ (ti de kw : String) (aty : String),
      tryBody (CallOutcome.parsedObject none (some ti) (some de) (some kw)) aty
        = Except.ok ("\n    "
          ++ createResultItem "URL" (urlPrefix aty ++ "undefined")
          ++ "\n    " ++ createResultItem "Title" ti
          ++ "\n    " ++ createResultItem "Description" de
          ++ "\n    " ++ createResultItem "Keywords" kw ++ "\n  ")) := by
  refine ⟨fun m aty => rfl, fun m aty => rfl, ?_, fun ti de kw aty => rfl⟩
  intro u t d k aty h
  rcases h with h | h | h
  · subst h
    rfl
  · subst h
    cases t <;> rfl
  · subst h
    cases t <;> cases d <;> rfl

theorem seo_c1_witness :
    finalResultsHTML (CallOutcome.parsedObject (some "s") none (some "b") (some "c")) "статья"
      = genericErrorHTML typeErrorMessage :=
  seo_c1_structural_failure.2.2.1 (some "s") none (some "b") (some "c")
    "статья" (Or.inl rfl)
